import Mathlib

/-!
Verification of `examples/rl-training/main.py` from the OpenSandbox repository.

The script is sequential orchestration glue over an external sandbox SDK:
it builds a connection configuration, creates a sandbox, writes files into
it, runs shell commands with ordered fallback lists, executes a generated
training script, reads back a summary file and tears the sandbox down.

We embed the script shallowly.  The external SDK is modelled as an oracle
(`World`): a map from command strings to execution results, a map from file
paths to read results, the host environment, and the text of the local
`requirements.txt` file.  Every effectful step of the script is recorded as
an `Event`, and each Python function that performs effects is translated to
a Lean function returning the list of events it emits (plus its return
value).  `main` returns the full event trace of one run.
-/

namespace RLTraining

/-- Error record carried by an execution result (`execution.error`),
with a name and a value, as printed by `_print_execution_logs`. -/
structure ExecError where
  name : String
  value : String
deriving DecidableEq, Repr

/-- One captured output message (`msg.text`). -/
structure OutputMessage where
  text : String
deriving DecidableEq, Repr

/-- Captured output streams of an execution (`execution.logs`). -/
structure Logs where
  stdout : List OutputMessage
  stderr : List OutputMessage
deriving DecidableEq, Repr

/-- Result of running a command in the sandbox: captured stdout and stderr
lines and an optional error record. -/
structure Execution where
  logs : Logs
  error : Option ExecError
deriving DecidableEq, Repr

/-- Connection configuration built in `main`: domain, optional API key and
request timeout (held in minutes; the script passes `timedelta(minutes=10)`). -/
structure ConnectionConfig where
  domain : String
  api_key : Option String
  request_timeout_minutes : Nat
deriving DecidableEq, Repr

/-- Observable effects of the script, in the order they are performed.
`createSandbox` records the image, the connection configuration and the
value bound to `RL_TIMESTEPS` in the environment mapping passed to
`Sandbox.create`; `scopeExit` marks leaving the `async with sandbox:` block
(the SDK-side teardown of the scoped acquisition). -/
inductive Event where
  | createSandbox (image : String) (config : ConnectionConfig) (envTimesteps : String)
  | writeFile (path : String) (content : String)
  | runCmd (command : String)
  | readFile (path : String)
  | print (message : String)
  | kill
  | scopeExit
deriving DecidableEq, Repr

/-- The oracle for everything outside the script: the host environment
(`os.getenv`), the execution result the sandbox returns for each command,
the outcome of reading a file back from the sandbox (`Except.error`
models a raised exception, carrying its rendered message), and the text of
the local `requirements.txt` read by `_load_requirements` (that file is
host-side data, not part of the source). -/
structure World where
  getenv : String → Option String
  runResult : String → Execution
  readFileResult : String → Except String String
  requirementsText : String

/-- Test whether `pat` occurs at the head of `s` (character list version). -/
def beginsWith : List Char → List Char → Bool
  | [], _ => true
  | _ :: _, [] => false
  | a :: as, b :: bs => a == b && beginsWith as bs

/-- Number of positions of `s` at which `pat` occurs (character lists). -/
def countOccsList (pat : List Char) : List Char → Nat
  | [] => 0
  | c :: rest => (if beginsWith pat (c :: rest) then 1 else 0) + countOccsList pat rest

/-- Number of occurrences of the pattern `pat` in the string `s`. -/
def countOccs (pat s : String) : Nat :=
  countOccsList pat.data s.data

/-- Whether the string `s` contains `pat` as a substring. -/
def containsSubstr (s pat : String) : Bool :=
  decide (0 < countOccs pat s)

/-- The generated training script (`_training_script`): the dedented,
left-stripped text of the triple-quoted template.  It is a fixed constant;
the template takes no parameters. -/
def _training_script : String :=
  String.intercalate "\n"
    [ "import json"
    , "import os"
    , ""
    , "import gymnasium as gym"
    , "from stable_baselines3 import DQN"
    , "from stable_baselines3.common.evaluation import evaluate_policy"
    , ""
    , "timesteps = int(os.getenv(\"RL_TIMESTEPS\", \"5000\"))"
    , "tensorboard_log = os.getenv(\"RL_TENSORBOARD_LOG\", \"runs\")"
    , ""
    , "env = gym.make(\"CartPole-v1\")"
    , "model = DQN("
    , "    \"MlpPolicy\","
    , "    env,"
    , "    verbose=1,"
    , "    tensorboard_log=tensorboard_log,"
    , "    learning_rate=1e-3,"
    , "    buffer_size=10000,"
    , "    learning_starts=1000,"
    , "    batch_size=32,"
    , "    train_freq=4,"
    , "    gradient_steps=1,"
    , ")"
    , ""
    , "model.learn(total_timesteps=timesteps)"
    , ""
    , "os.makedirs(\"checkpoints\", exist_ok=True)"
    , "checkpoint_path = \"checkpoints/cartpole_dqn\""
    , "model.save(checkpoint_path)"
    , ""
    , "mean_reward, std_reward = evaluate_policy(model, env, n_eval_episodes=5)"
    , "summary = \x7b"
    , "    \"timesteps\": timesteps,"
    , "    \"mean_reward\": float(mean_reward),"
    , "    \"std_reward\": float(std_reward),"
    , "    \"checkpoint_path\": f\"\x7bcheckpoint_path\x7d.zip\","
    , "\x7d"
    , "with open(\"training_summary.json\", \"w\", encoding=\"utf-8\") as handle:"
    , "    json.dump(summary, handle, indent=2)"
    , ""
    , "print(\"Training summary:\", summary)"
    , "env.close()"
    , "" ]

/-- Events emitted by `_print_execution_logs`: one print per stdout line,
one per stderr line, and one for the error record when present. -/
def _print_execution_logs (execution : Execution) : List Event :=
  (execution.logs.stdout.map fun msg => Event.print ("[stdout] " ++ msg.text)) ++
  (execution.logs.stderr.map fun msg => Event.print ("[stderr] " ++ msg.text)) ++
  (match execution.error with
   | some err => [Event.print ("[error] " ++ err.name ++ ": " ++ err.value)]
   | none => [])

/-- The failure predicate `_execution_failed`: an execution failed exactly
when `execution.error is not None`. -/
def _execution_failed (execution : Execution) : Bool :=
  execution.error.isSome

/-- One command attempt (`_run_command`): run the command, print its logs,
and report success as the negation of `_execution_failed`. -/
def _run_command (w : World) (command : String) : List Event × Bool :=
  let execution := w.runResult command
  (Event.runCmd command :: _print_execution_logs execution,
   !(_execution_failed execution))

/-- Wrap a command so it runs inside the sandbox Python environment
(`_with_python_env`). -/
def _with_python_env (command : String) : String :=
  "bash -lc \x27" ++
  "source /opt/opensandbox/code-interpreter-env.sh " ++
  "python $\x7bPYTHON_VERSION:-3.14\x7d >/dev/null " ++
  "&& " ++
  command ++
  "\x27"

/-- The shared fallback loop of `_ensure_pip` and `_install_requirements`:
`for command in commands: if await _run_command(sandbox, command): return True`
then `return False`.  Returns the events of all attempts made and the
overall result. -/
def fallbackLoop (w : World) : List String → List Event × Bool
  | [] => ([], false)
  | command :: rest =>
    let attempt := _run_command w command
    if attempt.2 then (attempt.1, true)
    else
      let remaining := fallbackLoop w rest
      (attempt.1 ++ remaining.1, remaining.2)

/-- The ordered bootstrap candidate list of `_ensure_pip`. -/
def bootstrap_commands : List String :=
  [ _with_python_env "python3 -m pip --version"
  , _with_python_env "python3 -m ensurepip --upgrade"
  , "apt-get update && apt-get install -y python3-pip"
  , "apk add --no-cache py3-pip" ]

/-- The ordered install candidate list of `_install_requirements`. -/
def install_commands : List String :=
  [ _with_python_env
      "python3 -m pip install --no-cache-dir --break-system-packages -r requirements.txt"
  , "pip3 install --no-cache-dir -r requirements.txt"
  , "pip install --no-cache-dir -r requirements.txt" ]

/-- The helper `_ensure_pip`: attempt the bootstrap candidates in order. -/
def _ensure_pip (w : World) : List Event × Bool :=
  fallbackLoop w bootstrap_commands

/-- The helper `_install_requirements`: attempt the install candidates in order. -/
def _install_requirements (w : World) : List Event × Bool :=
  fallbackLoop w install_commands

/-- The training command run by `main`. -/
def trainCommand : String :=
  _with_python_env "python3 train.py"

/-- The value of `timesteps` in `main`: `os.getenv("RL_TIMESTEPS", "5000")`. -/
def timestepsOf (w : World) : String :=
  (w.getenv "RL_TIMESTEPS").getD "5000"

/-- The value of `image` in `main`. -/
def imageOf (w : World) : String :=
  (w.getenv "SANDBOX_IMAGE").getD "opensandbox/code-interpreter:latest"

/-- The connection configuration built in `main`. -/
def configOf (w : World) : ConnectionConfig :=
  { domain := (w.getenv "SANDBOX_DOMAIN").getD "localhost:8080"
  , api_key := w.getenv "SANDBOX_API_KEY"
  , request_timeout_minutes := 10 }

/-- The event trace of one run of `main` against the oracle `w`, following
the source line by line: create the sandbox (passing the environment mapping
with `RL_TIMESTEPS`), write `requirements.txt`, bootstrap pip (early return
on failure), install requirements (early return on failure), write
`train.py`, run the training command and print its logs (early return on a
failed execution), read `training_summary.json` (printing the failure
message if the read raises, the summary otherwise), kill the sandbox;
leaving the `async with` scope is recorded as `scopeExit` on every path. -/
def main (w : World) : List Event :=
  Event.createSandbox (imageOf w) (configOf w) (timestepsOf w) ::
  Event.writeFile "requirements.txt" w.requirementsText ::
  ((_ensure_pip w).1 ++
   (if !(_ensure_pip w).2 then
      [Event.print "Failed to bootstrap pip inside the sandbox.", Event.scopeExit]
    else
      (_install_requirements w).1 ++
      (if !(_install_requirements w).2 then
         [Event.print "Failed to install RL dependencies inside the sandbox.", Event.scopeExit]
       else
         Event.writeFile "train.py" _training_script ::
         Event.runCmd trainCommand ::
         (_print_execution_logs (w.runResult trainCommand) ++
          (if _execution_failed (w.runResult trainCommand) then
             [Event.print "Training failed inside the sandbox.", Event.scopeExit]
           else
             Event.readFile "training_summary.json" ::
             ((match w.readFileResult "training_summary.json" with
               | Except.error exc =>
                   [Event.print ("\nFailed to read training summary: " ++ exc)]
               | Except.ok summary =>
                   [Event.print "\n=== Training summary ===", Event.print summary]) ++
              [Event.kill, Event.scopeExit]))))))

/-- The commands executed in a trace, in order. -/
def executedCommands (events : List Event) : List String :=
  events.filterMap fun e =>
    match e with
    | Event.runCmd c => some c
    | _ => none

/-- The contents written to `train.py` in a trace, in order. -/
def trainPyContent (events : List Event) : List String :=
  events.filterMap fun e =>
    match e with
    | Event.writeFile p s => if p = "train.py" then some s else none
    | _ => none

/-- An execution that succeeded: no output, no error. -/
def okExec : Execution :=
  { logs := { stdout := [], stderr := [] }, error := none }

/-- An execution that failed with a named error. -/
def failExec : Execution :=
  { logs := { stdout := [], stderr := [] }
  , error := some { name := "CommandError", value := "exit status 1" } }

/-- A world in which every command succeeds and the summary read succeeds. -/
def wAllOk : World :=
  { getenv := fun _ => none
  , runResult := fun _ => okExec
  , readFileResult := fun _ => Except.ok "summary-json"
  , requirementsText := "gymnasium\n" }

/-- A world in which every command fails. -/
def wAllFail : World :=
  { getenv := fun _ => none
  , runResult := fun _ => failExec
  , readFileResult := fun _ => Except.ok "summary-json"
  , requirementsText := "gymnasium\n" }

/-- A world in which every command succeeds except the training command. -/
def wTrainFail : World :=
  { getenv := fun _ => none
  , runResult := fun c => if c = trainCommand then failExec else okExec
  , readFileResult := fun _ => Except.ok "summary-json"
  , requirementsText := "gymnasium\n" }

/-- A world in which every command succeeds but reading the summary file
raises an exception. -/
def wReadFail : World :=
  { getenv := fun _ => none
  , runResult := fun _ => okExec
  , readFileResult := fun _ => Except.error "file not found"
  , requirementsText := "gymnasium\n" }

/-- A world in which the host sets `RL_TIMESTEPS=1000` and every sandbox
operation succeeds. -/
def w1000 : World :=
  { getenv := fun k => if k = "RL_TIMESTEPS" then some "1000" else none
  , runResult := fun _ => okExec
  , readFileResult := fun _ => Except.ok "summary-json"
  , requirementsText := "gymnasium\n" }

/-- Whether an event is a console print. -/
def isPrintEvent : Event → Bool
  | Event.print _ => true
  | _ => false

/-- Whether an event is a command run or a console print (the only event
kinds a fallback loop can emit). -/
def isCmdOrPrint : Event → Bool
  | Event.runCmd _ => true
  | Event.print _ => true
  | _ => false

theorem executedCommands_append (a b : List Event) :
    executedCommands (a ++ b) = executedCommands a ++ executedCommands b :=
  List.filterMap_append a b _

theorem mem_print_logs_isPrint (e : Execution) (ev : Event)
    (h : ev ∈ _print_execution_logs e) : isPrintEvent ev = true := by
  unfold _print_execution_logs at h
  rcases List.mem_append.mp h with h' | h'
  · rcases List.mem_append.mp h' with h'' | h''
    · rcases List.mem_map.mp h'' with ⟨m, _, rfl⟩; rfl
    · rcases List.mem_map.mp h'' with ⟨m, _, rfl⟩; rfl
  · cases herr : e.error with
    | some err => rw [herr] at h'; rcases List.mem_singleton.mp h' with rfl; rfl
    | none => rw [herr] at h'; cases h'

theorem executedCommands_print_logs (e : Execution) :
    executedCommands (_print_execution_logs e) = [] := by
  unfold executedCommands
  rw [List.filterMap_eq_nil_iff]
  intro ev hev
  have := mem_print_logs_isPrint e ev hev
  cases ev <;> simp_all [isPrintEvent]

theorem mem_fallback_isCmdOrPrint (w : World) (cmds : List String) (ev : Event)
    (h : ev ∈ (fallbackLoop w cmds).1) : isCmdOrPrint ev = true := by
  induction cmds with
  | nil => cases h
  | cons c rest ih =>
    unfold fallbackLoop at h
    by_cases hc : (_run_command w c).2
    · rw [if_pos hc] at h
      rcases List.mem_cons.mp h with rfl | h'
      · rfl
      · have := mem_print_logs_isPrint (w.runResult c) ev h'
        cases ev <;> simp_all [isPrintEvent, isCmdOrPrint]
    · rw [if_neg hc] at h
      rcases List.mem_append.mp h with h' | h'
      · rcases List.mem_cons.mp h' with rfl | h''
        · rfl
        · have := mem_print_logs_isPrint (w.runResult c) ev h''
          cases ev <;> simp_all [isPrintEvent, isCmdOrPrint]
      · exact ih h'

theorem executedCommands_cons (e : Event) (t : List Event) :
    executedCommands (e :: t) =
      (match e with | Event.runCmd c => [c] | _ => []) ++ executedCommands t := by
  cases e <;> simp [executedCommands, List.filterMap_cons]

theorem fallbackLoop_cons_success (w : World) (c : String) (rest : List String)
    (h : (w.runResult c).error = none) :
    fallbackLoop w (c :: rest) =
      (Event.runCmd c :: _print_execution_logs (w.runResult c), true) := by
  simp [fallbackLoop, _run_command, _execution_failed, h]

theorem fallbackLoop_cons_failure (w : World) (c : String) (rest : List String)
    (h : (w.runResult c).error ≠ none) :
    fallbackLoop w (c :: rest) =
      ((Event.runCmd c :: _print_execution_logs (w.runResult c)) ++ (fallbackLoop w rest).1,
       (fallbackLoop w rest).2) := by
  cases herr : (w.runResult c).error with
  | none => exact absurd herr h
  | some err => simp [fallbackLoop, _run_command, _execution_failed, herr]

theorem executedCommands_run_command (w : World) (c : String) :
    executedCommands (_run_command w c).1 = [c] := by
  show executedCommands (Event.runCmd c :: _print_execution_logs (w.runResult c)) = [c]
  rw [executedCommands_cons, executedCommands_print_logs]
  rfl

theorem fallbackLoop_all_fail (w : World) (cmds : List String)
    (h : ∀ c ∈ cmds, (w.runResult c).error ≠ none) :
    executedCommands (fallbackLoop w cmds).1 = cmds ∧ (fallbackLoop w cmds).2 = false := by
  induction cmds with
  | nil => exact ⟨rfl, rfl⟩
  | cons c rest ih =>
    have hc := h c (List.mem_cons_self c rest)
    rw [fallbackLoop_cons_failure w c rest hc]
    obtain ⟨ih1, ih2⟩ := ih fun d hd => h d (List.mem_cons_of_mem c hd)
    refine ⟨?_, ih2⟩
    rw [show ((Event.runCmd c :: _print_execution_logs (w.runResult c)) ++
          (fallbackLoop w rest).1, (fallbackLoop w rest).2).1 =
        (Event.runCmd c :: _print_execution_logs (w.runResult c)) ++ (fallbackLoop w rest).1
        from rfl]
    rw [executedCommands_append, executedCommands_cons, executedCommands_print_logs, ih1]
    rfl

theorem fallback_first_success_core (w : World) (c : String) (rest : List String)
    (h : (w.runResult c).error = none) :
    executedCommands (fallbackLoop w (c :: rest)).1 = [c] ∧
      (fallbackLoop w (c :: rest)).2 = true := by
  rw [fallbackLoop_cons_success w c rest h]
  exact ⟨by rw [show (Event.runCmd c :: _print_execution_logs (w.runResult c), true).1 =
      Event.runCmd c :: _print_execution_logs (w.runResult c) from rfl,
      executedCommands_cons, executedCommands_print_logs]; rfl, rfl⟩

/-- C1: for every ordered fallback command list, if the first command's
execution result carries no error, exactly that one command is executed and
the loop returns success; instantiated to the bootstrap list of
`_ensure_pip` and the install list of `_install_requirements`. -/
theorem first_success_executes_exactly_one (w : World) (c : String) (rest : List String)
    (h : (w.runResult c).error = none) :
    (executedCommands (fallbackLoop w (c :: rest)).1 = [c] ∧
      (fallbackLoop w (c :: rest)).2 = true) ∧
    ((w.runResult (_with_python_env "python3 -m pip --version")).error = none →
      executedCommands (_ensure_pip w).1 = [_with_python_env "python3 -m pip --version"] ∧
        (_ensure_pip w).2 = true) ∧
    ((w.runResult (_with_python_env
        "python3 -m pip install --no-cache-dir --break-system-packages -r requirements.txt")).error
          = none →
      executedCommands (_install_requirements w).1 =
          [_with_python_env
            "python3 -m pip install --no-cache-dir --break-system-packages -r requirements.txt"] ∧
        (_install_requirements w).2 = true) := by
  refine ⟨fallback_first_success_core w c rest h, fun hb => ?_, fun hi => ?_⟩
  · exact fallback_first_success_core w _ _ hb
  · exact fallback_first_success_core w _ _ hi

/-- Witness for C1 at a concrete world in which every command succeeds. -/
theorem first_success_executes_exactly_one_witness :
    (executedCommands (fallbackLoop wAllOk ["echo hi"]).1 = ["echo hi"] ∧
      (fallbackLoop wAllOk ["echo hi"]).2 = true) ∧
    ((wAllOk.runResult (_with_python_env "python3 -m pip --version")).error = none →
      executedCommands (_ensure_pip wAllOk).1 = [_with_python_env "python3 -m pip --version"] ∧
        (_ensure_pip wAllOk).2 = true) ∧
    ((wAllOk.runResult (_with_python_env
        "python3 -m pip install --no-cache-dir --break-system-packages -r requirements.txt")).error
          = none →
      executedCommands (_install_requirements wAllOk).1 =
          [_with_python_env
            "python3 -m pip install --no-cache-dir --break-system-packages -r requirements.txt"] ∧
        (_install_requirements wAllOk).2 = true) :=
  first_success_executes_exactly_one wAllOk "echo hi" [] rfl

/-- C2: for every ordered fallback command list in which every command's
execution result carries an error, all commands are attempted exactly once,
in list order, and the loop reports failure; instantiated to the bootstrap
list of `_ensure_pip` and the install list of `_install_requirements`. -/
theorem all_fail_attempts_all_in_order (w : World) (cmds : List String)
    (h : ∀ c ∈ cmds, (w.runResult c).error ≠ none) :
    (executedCommands (fallbackLoop w cmds).1 = cmds ∧ (fallbackLoop w cmds).2 = false) ∧
    ((∀ c ∈ bootstrap_commands, (w.runResult c).error ≠ none) →
      executedCommands (_ensure_pip w).1 = bootstrap_commands ∧ (_ensure_pip w).2 = false) ∧
    ((∀ c ∈ install_commands, (w.runResult c).error ≠ none) →
      executedCommands (_install_requirements w).1 = install_commands ∧
        (_install_requirements w).2 = false) := by
  exact ⟨fallbackLoop_all_fail w cmds h,
    fun hb => fallbackLoop_all_fail w bootstrap_commands hb,
    fun hi => fallbackLoop_all_fail w install_commands hi⟩

/-- Witness for C2 at a concrete world in which every command fails. -/
theorem all_fail_attempts_all_in_order_witness :
    (executedCommands (fallbackLoop wAllFail ["echo a", "echo b"]).1 = ["echo a", "echo b"] ∧
      (fallbackLoop wAllFail ["echo a", "echo b"]).2 = false) ∧
    ((∀ c ∈ bootstrap_commands, (wAllFail.runResult c).error ≠ none) →
      executedCommands (_ensure_pip wAllFail).1 = bootstrap_commands ∧
        (_ensure_pip wAllFail).2 = false) ∧
    ((∀ c ∈ install_commands, (wAllFail.runResult c).error ≠ none) →
      executedCommands (_install_requirements wAllFail).1 = install_commands ∧
        (_install_requirements wAllFail).2 = false) :=
  all_fail_attempts_all_in_order wAllFail ["echo a", "echo b"]
    (fun c _ => by simp [wAllFail, failExec])

theorem readFile_not_mem_print_logs (e : Execution) (p : String) :
    Event.readFile p ∉ _print_execution_logs e := fun h => by
  have := mem_print_logs_isPrint e _ h
  simp [isPrintEvent] at this

theorem writeFile_not_mem_print_logs (e : Execution) (p s : String) :
    Event.writeFile p s ∉ _print_execution_logs e := fun h => by
  have := mem_print_logs_isPrint e _ h
  simp [isPrintEvent] at this

theorem readFile_not_mem_fallback (w : World) (cmds : List String) (p : String) :
    Event.readFile p ∉ (fallbackLoop w cmds).1 := fun h => by
  have := mem_fallback_isCmdOrPrint w cmds _ h
  simp [isCmdOrPrint] at this

theorem writeFile_not_mem_fallback (w : World) (cmds : List String) (p s : String) :
    Event.writeFile p s ∉ (fallbackLoop w cmds).1 := fun h => by
  have := mem_fallback_isCmdOrPrint w cmds _ h
  simp [isCmdOrPrint] at this

/-- A second failing execution, with output lines and a different error
text, used to witness that only the presence of an error is inspected. -/
def failExec2 : Execution :=
  { logs := { stdout := [{ text := "attempting" }], stderr := [{ text := "warning" }] }
  , error := some { name := "OtherError", value := "exit status 127" } }

/-- C6: a command attempt is judged failed exactly when the execution
result's error field is non-null; two execution results that agree on the
presence of an error are judged identically whatever their output streams
or error contents, and a fallback loop advances past its head command
exactly when that command's result carries an error. -/
theorem failure_judged_by_error_only (e₁ e₂ : Execution)
    (h : e₁.error.isSome = e₂.error.isSome) (w : World) (c : String) (rest : List String) :
    _execution_failed e₁ = _execution_failed e₂ ∧
    (_execution_failed e₁ = true ↔ e₁.error ≠ none) ∧
    (_run_command w c).2 = !(w.runResult c).error.isSome ∧
    (fallbackLoop w (c :: rest)).2 =
      (if (w.runResult c).error = none then true else (fallbackLoop w rest).2) := by
  refine ⟨by simp [_execution_failed, h], ?_, rfl, ?_⟩
  · simp [_execution_failed, Option.isSome_iff_ne_none]
  · by_cases herr : (w.runResult c).error = none
    · rw [fallbackLoop_cons_success w c rest herr, if_pos herr]
    · rw [fallbackLoop_cons_failure w c rest herr, if_neg herr]

/-- Witness for C6: two failing executions with different logs and error
texts are judged identically, at a concrete world and command list. -/
theorem failure_judged_by_error_only_witness :
    (_execution_failed failExec = _execution_failed failExec2 ∧
    (_execution_failed failExec = true ↔ failExec.error ≠ none) ∧
    (_run_command wAllFail "echo hi").2 = !(wAllFail.runResult "echo hi").error.isSome ∧
    (fallbackLoop wAllFail ("echo hi" :: ["echo bye"])).2 =
      (if (wAllFail.runResult "echo hi").error = none then true
       else (fallbackLoop wAllFail ["echo bye"]).2)) ∧
    failExec.logs ≠ failExec2.logs ∧ failExec.error ≠ failExec2.error :=
  ⟨failure_judged_by_error_only failExec failExec2 rfl wAllFail "echo hi" ["echo bye"],
   by decide, by decide⟩

theorem fallbackLoop_fst_success (w : World) (c : String) (rest : List String)
    (h : (w.runResult c).error = none) :
    (fallbackLoop w (c :: rest)).1 =
      Event.runCmd c :: _print_execution_logs (w.runResult c) := by
  rw [fallbackLoop_cons_success w c rest h]

theorem fallbackLoop_fst_failure (w : World) (c : String) (rest : List String)
    (h : (w.runResult c).error ≠ none) :
    (fallbackLoop w (c :: rest)).1 =
      (Event.runCmd c :: _print_execution_logs (w.runResult c)) ++ (fallbackLoop w rest).1 := by
  rw [fallbackLoop_cons_failure w c rest h]

theorem executedCommands_fallback_subset (w : World) (cmds : List String) (c : String)
    (h : c ∈ executedCommands (fallbackLoop w cmds).1) : c ∈ cmds := by
  induction cmds with
  | nil => simp [fallbackLoop, executedCommands] at h
  | cons d rest ih =>
    by_cases hd : (w.runResult d).error = none
    · rw [fallbackLoop_fst_success w d rest hd, executedCommands_cons,
        executedCommands_print_logs] at h
      simp at h
      simp [h]
    · rw [fallbackLoop_fst_failure w d rest hd, executedCommands_append, executedCommands_cons,
        executedCommands_print_logs] at h
      simp at h
      rcases h with rfl | h
      · exact List.mem_cons_self _ _
      · exact List.mem_cons_of_mem _ (ih h)

theorem runCmd_mem_iff (evs : List Event) (c : String) :
    Event.runCmd c ∈ evs ↔ c ∈ executedCommands evs := by
  constructor
  · intro h
    exact List.mem_filterMap.mpr ⟨Event.runCmd c, h, rfl⟩
  · intro h
    rcases List.mem_filterMap.mp h with ⟨e, he, hf⟩
    cases e <;> simp at hf
    rwa [hf] at he

theorem writeFile_not_mem_ensure_pip (w : World) (p s : String) :
    Event.writeFile p s ∉ (_ensure_pip w).1 :=
  writeFile_not_mem_fallback w bootstrap_commands p s

theorem writeFile_not_mem_install (w : World) (p s : String) :
    Event.writeFile p s ∉ (_install_requirements w).1 :=
  writeFile_not_mem_fallback w install_commands p s

theorem readFile_not_mem_ensure_pip (w : World) (p : String) :
    Event.readFile p ∉ (_ensure_pip w).1 :=
  readFile_not_mem_fallback w bootstrap_commands p

theorem readFile_not_mem_install (w : World) (p : String) :
    Event.readFile p ∉ (_install_requirements w).1 :=
  readFile_not_mem_fallback w install_commands p

/-- Content of any `train.py` write in a run of `main`: such a write occurs
only after both the bootstrap and the install stage succeeded, and always
carries the constant generated script. -/
theorem writeFile_train_py_mem_main (w : World) (s : String)
    (h : Event.writeFile "train.py" s ∈ main w) :
    (_ensure_pip w).2 = true ∧ (_install_requirements w).2 = true ∧ s = _training_script := by
  cases hp : (_ensure_pip w).2 with
  | false =>
    exfalso
    simp [main, hp, writeFile_not_mem_ensure_pip] at h
  | true =>
    cases hi : (_install_requirements w).2 with
    | false =>
      exfalso
      simp [main, hp, hi, writeFile_not_mem_ensure_pip, writeFile_not_mem_install] at h
    | true =>
      refine ⟨rfl, rfl, ?_⟩
      cases ht : _execution_failed (w.runResult trainCommand) with
      | true =>
        simp [main, hp, hi, ht, writeFile_not_mem_ensure_pip, writeFile_not_mem_install,
          writeFile_not_mem_print_logs] at h
        exact h
      | false =>
        cases hr : w.readFileResult "training_summary.json" with
        | error exc =>
          simp [main, hp, hi, ht, hr, writeFile_not_mem_ensure_pip, writeFile_not_mem_install,
            writeFile_not_mem_print_logs] at h
          exact h
        | ok summary =>
          simp [main, hp, hi, ht, hr, writeFile_not_mem_ensure_pip, writeFile_not_mem_install,
            writeFile_not_mem_print_logs] at h
          exact h

theorem executedCommands_nil : executedCommands [] = [] := rfl

set_option maxRecDepth 8000 in
theorem install_bootstrap_disjoint : ∀ c ∈ install_commands, c ∉ bootstrap_commands := by
  decide

set_option maxRecDepth 8000 in
theorem trainCommand_not_bootstrap : trainCommand ∉ bootstrap_commands := by decide

/-- C4: if the bootstrap step `_ensure_pip` reports failure, `main` runs no
install candidate and no training command, prints the bootstrap failure
message and ends the run right there (the trace is exactly the creation and
manifest-write prefix, the bootstrap attempts, the failure print, and the
scope exit). -/
theorem bootstrap_failure_aborts (w : World) (h : (_ensure_pip w).2 = false) :
    main w =
      Event.createSandbox (imageOf w) (configOf w) (timestepsOf w) ::
      Event.writeFile "requirements.txt" w.requirementsText ::
      ((_ensure_pip w).1 ++
        [Event.print "Failed to bootstrap pip inside the sandbox.", Event.scopeExit]) ∧
    (∀ c, c ∈ executedCommands (main w) → c ∈ bootstrap_commands) ∧
    (∀ c ∈ install_commands, Event.runCmd c ∉ main w) ∧
    Event.runCmd trainCommand ∉ main w := by
  have htrace : main w =
      Event.createSandbox (imageOf w) (configOf w) (timestepsOf w) ::
      Event.writeFile "requirements.txt" w.requirementsText ::
      ((_ensure_pip w).1 ++
        [Event.print "Failed to bootstrap pip inside the sandbox.", Event.scopeExit]) := by
    simp [main, h]
  have hE : ∀ c, c ∈ executedCommands (main w) → c ∈ bootstrap_commands := by
    intro c hc
    rw [htrace] at hc
    rw [executedCommands_cons, executedCommands_cons, executedCommands_append,
      executedCommands_cons, executedCommands_cons, executedCommands_nil] at hc
    simp at hc
    exact executedCommands_fallback_subset w bootstrap_commands c hc
  refine ⟨htrace, hE, ?_, ?_⟩
  · intro c hcmem hrun
    exact install_bootstrap_disjoint c hcmem (hE c ((runCmd_mem_iff (main w) c).mp hrun))
  · intro hrun
    exact trainCommand_not_bootstrap (hE trainCommand ((runCmd_mem_iff (main w) trainCommand).mp hrun))

/-- Witness for C4 at the concrete world in which every command fails. -/
theorem bootstrap_failure_aborts_witness :
    main wAllFail =
      Event.createSandbox (imageOf wAllFail) (configOf wAllFail) (timestepsOf wAllFail) ::
      Event.writeFile "requirements.txt" wAllFail.requirementsText ::
      ((_ensure_pip wAllFail).1 ++
        [Event.print "Failed to bootstrap pip inside the sandbox.", Event.scopeExit]) ∧
    (∀ c, c ∈ executedCommands (main wAllFail) → c ∈ bootstrap_commands) ∧
    (∀ c ∈ install_commands, Event.runCmd c ∉ main wAllFail) ∧
    Event.runCmd trainCommand ∉ main wAllFail :=
  bootstrap_failure_aborts wAllFail (by decide)

/-- C5: if the training execution result carries a non-null error, the
summary file is never read; and in a run that reaches the training stage
(bootstrap and install both succeeded), the training failure message is
printed and the run ends right there. -/
theorem training_failure_skips_summary (w : World)
    (herr : (w.runResult trainCommand).error ≠ none) :
    Event.readFile "training_summary.json" ∉ main w ∧
    ((_ensure_pip w).2 = true → (_install_requirements w).2 = true →
      Event.print "Training failed inside the sandbox." ∈ main w ∧
      main w =
        Event.createSandbox (imageOf w) (configOf w) (timestepsOf w) ::
        Event.writeFile "requirements.txt" w.requirementsText ::
        ((_ensure_pip w).1 ++
          ((_install_requirements w).1 ++
            (Event.writeFile "train.py" _training_script ::
             Event.runCmd trainCommand ::
             (_print_execution_logs (w.runResult trainCommand) ++
              [Event.print "Training failed inside the sandbox.", Event.scopeExit]))))) := by
  have ht : _execution_failed (w.runResult trainCommand) = true := by
    simp [_execution_failed, Option.isSome_iff_ne_none, herr]
  constructor
  · cases hp : (_ensure_pip w).2 with
    | false => simp [main, hp, readFile_not_mem_ensure_pip]
    | true =>
      cases hi : (_install_requirements w).2 with
      | false => simp [main, hp, hi, readFile_not_mem_ensure_pip, readFile_not_mem_install]
      | true =>
        simp [main, hp, hi, ht, readFile_not_mem_ensure_pip, readFile_not_mem_install,
          readFile_not_mem_print_logs]
  · intro hp hi
    have htrace : main w =
        Event.createSandbox (imageOf w) (configOf w) (timestepsOf w) ::
        Event.writeFile "requirements.txt" w.requirementsText ::
        ((_ensure_pip w).1 ++
          ((_install_requirements w).1 ++
            (Event.writeFile "train.py" _training_script ::
             Event.runCmd trainCommand ::
             (_print_execution_logs (w.runResult trainCommand) ++
              [Event.print "Training failed inside the sandbox.", Event.scopeExit])))) := by
      simp [main, hp, hi, ht]
    exact ⟨by rw [htrace]; simp, htrace⟩

/-- Witness for C5 at the concrete world in which only the training command
fails. -/
theorem training_failure_skips_summary_witness :
    Event.readFile "training_summary.json" ∉ main wTrainFail ∧
    (Event.print "Training failed inside the sandbox." ∈ main wTrainFail ∧
      main wTrainFail =
        Event.createSandbox (imageOf wTrainFail) (configOf wTrainFail) (timestepsOf wTrainFail) ::
        Event.writeFile "requirements.txt" wTrainFail.requirementsText ::
        ((_ensure_pip wTrainFail).1 ++
          ((_install_requirements wTrainFail).1 ++
            (Event.writeFile "train.py" _training_script ::
             Event.runCmd trainCommand ::
             (_print_execution_logs (wTrainFail.runResult trainCommand) ++
              [Event.print "Training failed inside the sandbox.", Event.scopeExit]))))) :=
  ⟨(training_failure_skips_summary wTrainFail (by decide)).1,
   (training_failure_skips_summary wTrainFail (by decide)).2 (by decide) (by decide)⟩

/-- Events of a run of `main` up to and including the read of the summary
file, on the path where bootstrap, install and training all succeed. -/
def successPrefix (w : World) : List Event :=
  Event.createSandbox (imageOf w) (configOf w) (timestepsOf w) ::
  Event.writeFile "requirements.txt" w.requirementsText ::
  ((_ensure_pip w).1 ++
    ((_install_requirements w).1 ++
      (Event.writeFile "train.py" _training_script ::
       Event.runCmd trainCommand ::
       (_print_execution_logs (w.runResult trainCommand) ++
        [Event.readFile "training_summary.json"]))))

/-- C7: on a run that reaches the summary read, a raised read exception is
caught and reported by an inline print, after which the explicit kill and
the scope exit still occur; on a successful read the summary text is
printed instead, followed by the same teardown. -/
theorem summary_read_failure_recovered (w : World)
    (hp : (_ensure_pip w).2 = true) (hi : (_install_requirements w).2 = true)
    (ht : (w.runResult trainCommand).error = none) :
    (∀ exc, w.readFileResult "training_summary.json" = Except.error exc →
      main w = successPrefix w ++
        [Event.print ("\nFailed to read training summary: " ++ exc),
         Event.kill, Event.scopeExit]) ∧
    (∀ s, w.readFileResult "training_summary.json" = Except.ok s →
      main w = successPrefix w ++
        [Event.print "\n=== Training summary ===", Event.print s,
         Event.kill, Event.scopeExit]) := by
  have ht' : _execution_failed (w.runResult trainCommand) = false := by
    simp [_execution_failed, ht]
  constructor
  · intro exc hr
    simp [main, successPrefix, hp, hi, ht', hr]
  · intro s hr
    simp [main, successPrefix, hp, hi, ht', hr]

/-- Witness for C7: the failing read at `wReadFail` and the successful read
at `wAllOk`, both applied through the theorem. -/
theorem summary_read_failure_recovered_witness :
    main wReadFail = successPrefix wReadFail ++
      [Event.print ("\nFailed to read training summary: " ++ "file not found"),
       Event.kill, Event.scopeExit] ∧
    main wAllOk = successPrefix wAllOk ++
      [Event.print "\n=== Training summary ===", Event.print "summary-json",
       Event.kill, Event.scopeExit] :=
  ⟨(summary_read_failure_recovered wReadFail (by decide) (by decide) (by decide)).1
      "file not found" rfl,
   (summary_read_failure_recovered wAllOk (by decide) (by decide) (by decide)).2
      "summary-json" rfl⟩

set_option maxRecDepth 1000000 in
/-- Counterexample to C8: in a concrete fully-successful run, the third
event already runs the first bootstrap candidate while `train.py` has not
been written among the first three events; the `train.py` write only occurs
strictly later in the trace. -/
theorem train_py_written_after_bootstrap_cex :
    (main wAllOk).take 3 =
      [Event.createSandbox "opensandbox/code-interpreter:latest"
         { domain := "localhost:8080", api_key := none, request_timeout_minutes := 10 } "5000",
       Event.writeFile "requirements.txt" "gymnasium\n",
       Event.runCmd (_with_python_env "python3 -m pip --version")] ∧
    Event.writeFile "train.py" _training_script ∉ (main wAllOk).take 3 ∧
    Event.writeFile "train.py" _training_script ∈ (main wAllOk).drop 3 := by
  refine ⟨by decide, by decide, by decide⟩

/-- C8 (amended): the dependency manifest is written before any bootstrap
candidate is attempted (it is the second event, before any command run),
but the generated training script `train.py` is written only after both the
bootstrap and the install stage succeed, and it always carries the constant
generated script. -/
theorem manifest_before_bootstrap_train_py_after_install (w : World) :
    (main w).take 2 =
      [Event.createSandbox (imageOf w) (configOf w) (timestepsOf w),
       Event.writeFile "requirements.txt" w.requirementsText] ∧
    (∀ s, Event.writeFile "train.py" s ∈ main w →
      (_ensure_pip w).2 = true ∧ (_install_requirements w).2 = true ∧ s = _training_script) :=
  ⟨rfl, fun s h => writeFile_train_py_mem_main w s h⟩

set_option maxRecDepth 1000000 in
/-- Witness for the amended C8 at the concrete fully-successful world. -/
theorem manifest_before_bootstrap_train_py_after_install_witness :
    (main wAllOk).take 2 =
      [Event.createSandbox (imageOf wAllOk) (configOf wAllOk) (timestepsOf wAllOk),
       Event.writeFile "requirements.txt" wAllOk.requirementsText] ∧
    ((_ensure_pip wAllOk).2 = true ∧ (_install_requirements wAllOk).2 = true ∧
      _training_script = _training_script) :=
  ⟨(manifest_before_bootstrap_train_py_after_install wAllOk).1,
   (manifest_before_bootstrap_train_py_after_install wAllOk).2 _training_script (by decide)⟩

set_option maxRecDepth 1000000 in
/-- C9: every `train.py` write in any run carries the same fixed string,
and that string contains exactly one `evaluate_policy(` invocation and
exactly one `model.save(` checkpoint call. -/
theorem training_script_deterministic (w : World) (s : String)
    (h : Event.writeFile "train.py" s ∈ main w) :
    s = _training_script ∧
    countOccs "evaluate_policy(" s = 1 ∧
    countOccs "model.save(" s = 1 := by
  have hs := (writeFile_train_py_mem_main w s h).2.2
  subst hs
  exact ⟨rfl, by decide, by decide⟩

set_option maxRecDepth 1000000 in
/-- Witness for C9 at the concrete fully-successful world. -/
theorem training_script_deterministic_witness :
    _training_script = _training_script ∧
    countOccs "evaluate_policy(" _training_script = 1 ∧
    countOccs "model.save(" _training_script = 1 :=
  training_script_deterministic wAllOk _training_script (by decide)

set_option maxRecDepth 1000000 in
/-- C10: the generated training script is one fixed constant embedding the
literal default `5000` for `RL_TIMESTEPS`; every `train.py` write carries
that constant regardless of the host environment, and the host value of
`RL_TIMESTEPS` reaches the sandbox only through the environment mapping
recorded on the `Sandbox.create` event. -/
theorem training_script_constant (w : World) :
    containsSubstr _training_script "int(os.getenv(\"RL_TIMESTEPS\", \"5000\"))" = true ∧
    (∀ s, Event.writeFile "train.py" s ∈ main w → s = _training_script) ∧
    (main w).head? = some (Event.createSandbox (imageOf w) (configOf w)
      ((w.getenv "RL_TIMESTEPS").getD "5000")) :=
  ⟨by decide, fun s h => (writeFile_train_py_mem_main w s h).2.2, rfl⟩

set_option maxRecDepth 1000000 in
/-- Witness for C10 at the concrete fully-successful world. -/
theorem training_script_constant_witness :
    containsSubstr _training_script "int(os.getenv(\"RL_TIMESTEPS\", \"5000\"))" = true ∧
    _training_script = _training_script ∧
    (main wAllOk).head? = some (Event.createSandbox (imageOf wAllOk) (configOf wAllOk)
      ((wAllOk.getenv "RL_TIMESTEPS").getD "5000")) :=
  ⟨(training_script_constant wAllOk).1,
   (training_script_constant wAllOk).2.1 _training_script (by decide),
   (training_script_constant wAllOk).2.2⟩

set_option maxRecDepth 1000000 in
/-- Counterexample to C3: in a run with `RL_TIMESTEPS=1000`, the only
content ever written to `train.py` is the fixed template, which embeds the
default `"5000"` for `RL_TIMESTEPS` and contains no `"1000"` default for
that variable. -/
theorem timesteps_default_cex :
    trainPyContent (main w1000) = [_training_script] ∧
    containsSubstr _training_script "os.getenv(\"RL_TIMESTEPS\", \"1000\")" = false ∧
    containsSubstr _training_script "int(os.getenv(\"RL_TIMESTEPS\", \"5000\"))" = true := by
  refine ⟨by decide, by decide, by decide⟩

set_option maxRecDepth 1000000 in
/-- C3 (amended): the generated script always embeds the internal default
`5000` for `RL_TIMESTEPS`; when the host sets `RL_TIMESTEPS=1000`, the
script text is unchanged (it still embeds the `"5000"` default and no
`"1000"` default) and the value `"1000"` instead reaches the sandbox
through the environment mapping passed to `Sandbox.create`. -/
theorem timesteps_default_amended (w : World)
    (h : w.getenv "RL_TIMESTEPS" = some "1000") :
    containsSubstr _training_script "int(os.getenv(\"RL_TIMESTEPS\", \"5000\"))" = true ∧
    timestepsOf w = "1000" ∧
    (main w).head? = some (Event.createSandbox (imageOf w) (configOf w) "1000") ∧
    (∀ s, Event.writeFile "train.py" s ∈ main w →
      containsSubstr s "int(os.getenv(\"RL_TIMESTEPS\", \"5000\"))" = true ∧
      containsSubstr s "os.getenv(\"RL_TIMESTEPS\", \"1000\")" = false) := by
  have hts : timestepsOf w = "1000" := by simp [timestepsOf, h]
  have hh : (main w).head? =
      some (Event.createSandbox (imageOf w) (configOf w) (timestepsOf w)) := rfl
  rw [hts] at hh
  refine ⟨by decide, hts, hh, fun s hs => ?_⟩
  have heq := (writeFile_train_py_mem_main w s hs).2.2
  subst heq
  exact ⟨by decide, by decide⟩

set_option maxRecDepth 1000000 in
/-- Witness for the amended C3 at the concrete world with
`RL_TIMESTEPS=1000`. -/
theorem timesteps_default_amended_witness :
    containsSubstr _training_script "int(os.getenv(\"RL_TIMESTEPS\", \"5000\"))" = true ∧
    timestepsOf w1000 = "1000" ∧
    (main w1000).head? = some (Event.createSandbox (imageOf w1000) (configOf w1000) "1000") ∧
    (containsSubstr _training_script "int(os.getenv(\"RL_TIMESTEPS\", \"5000\"))" = true ∧
     containsSubstr _training_script "os.getenv(\"RL_TIMESTEPS\", \"1000\")" = false) := by
  have base := timesteps_default_amended w1000 (by decide)
  exact ⟨base.1, base.2.1, base.2.2.1, base.2.2.2 _training_script (by decide)⟩

end RLTraining
